import Mathlib

/-!
Verification of the device-metrics collection core of `bizflycloud/node_exporter`
(`collector/netdev_windows.go` and `collector/gpu_common.go`), shallowly embedded
in Lean 4.  Go maps with string keys are modelled as association lists with
unique keys, Go `(value, error)` returns as `Except` (every `return` in the
source pairs a nil value with a non-nil error or vice versa), and the external
APIs (gopsutil's `net.IOCounters`, gonvml) as explicit oracle parameters.
-/

set_option autoImplicit false

/-- Go `error` values, modelled as their message strings. -/
abbrev GoErr := String

/-- A Go `map` with string keys, modelled as an association list whose keys are
unique (every operation below preserves uniqueness). -/
abbrev goMap (β : Type) : Type := List (String × β)

/-- Go map assignment `m[k] = v`: overwrite the entry when the key is present,
append a fresh entry otherwise. -/
def mapInsert {β : Type} (m : goMap β) (k : String) (v : β) : goMap β :=
  match m with
  | [] => [(k, v)]
  | p :: rest => if p.1 = k then (k, v) :: rest else p :: mapInsert rest k v

/-- Go `delete(m, k)`. -/
def mapErase {β : Type} (m : goMap β) (k : String) : goMap β :=
  m.filter (fun p => p.1 != k)

/-- `net.IOCountersStat` from `shirou/gopsutil/net`: the per-interface snapshot
returned by the platform statistics API.  All counter fields are `uint64` in Go
and are modelled as `Nat`; `wf` below records the 64-bit range invariant. -/
structure IOCountersStat where
  Name : String
  BytesSent : Nat
  BytesRecv : Nat
  PacketsSent : Nat
  PacketsRecv : Nat
  Errin : Nat
  Errout : Nat
  Dropin : Nat
  Dropout : Nat
  Fifoin : Nat
  Fifoout : Nat
deriving DecidableEq

/-- The `uint64` range invariant carried by every Go value of type
`net.IOCountersStat`. -/
def IOCountersStat.wf (d : IOCountersStat) : Prop :=
  d.BytesSent < 2 ^ 64 ∧ d.BytesRecv < 2 ^ 64 ∧ d.PacketsSent < 2 ^ 64 ∧
  d.PacketsRecv < 2 ^ 64 ∧ d.Errin < 2 ^ 64 ∧ d.Errout < 2 ^ 64 ∧
  d.Dropin < 2 ^ 64 ∧ d.Dropout < 2 ^ 64 ∧ d.Fifoin < 2 ^ 64 ∧ d.Fifoout < 2 ^ 64

instance (d : IOCountersStat) : Decidable d.wf := by
  unfold IOCountersStat.wf
  infer_instance

/-- The fragment of JSON values produced by `json.Marshal` on
`net.IOCountersStat`: one string (the name) and unsigned integers. -/
inductive JsonVal : Type
  | str (s : String)
  | num (n : Nat)
deriving DecidableEq

/-- `json.Marshal(data)` for `data : net.IOCountersStat`: a JSON object with one
member per struct field, in declaration order, keyed by the struct's JSON tags
(`name`, `bytesSent`, …).  Marshalling this struct type cannot fail in Go (all
field types are marshallable and there are no cycles), so no error case is
modelled. -/
def marshalIOCounters (d : IOCountersStat) : List (String × JsonVal) :=
  [("name", JsonVal.str d.Name),
   ("bytesSent", JsonVal.num d.BytesSent),
   ("bytesRecv", JsonVal.num d.BytesRecv),
   ("packetsSent", JsonVal.num d.PacketsSent),
   ("packetsRecv", JsonVal.num d.PacketsRecv),
   ("errin", JsonVal.num d.Errin),
   ("errout", JsonVal.num d.Errout),
   ("dropin", JsonVal.num d.Dropin),
   ("dropout", JsonVal.num d.Dropout),
   ("fifoin", JsonVal.num d.Fifoin),
   ("fifoout", JsonVal.num d.Fifoout)]

/-- `encoding/json` keeps only the first decoding error of an object. -/
def firstErr (saved : Option GoErr) (e : GoErr) : Option GoErr :=
  match saved with
  | some x => some x
  | none => some e

/-- Decoding of one JSON object member into a `map[string]uint64` entry,
mirroring `encoding/json`: a number in `uint64` range decodes to itself; a
string member (or an out-of-range number) records an `UnmarshalTypeError` as
the saved error while decoding continues, and the map entry is set to the
`uint64` zero value. -/
def decodeEntry (acc : goMap Nat × Option GoErr) (kv : String × JsonVal) :
    goMap Nat × Option GoErr :=
  match kv.2 with
  | JsonVal.str _ => (mapInsert acc.1 kv.1 0, firstErr acc.2 "json: cannot unmarshal string into value of type uint64")
  | JsonVal.num n =>
    if n < 2 ^ 64 then (mapInsert acc.1 kv.1 n, acc.2)
    else (mapInsert acc.1 kv.1 0, firstErr acc.2 "json: number overflows uint64")

/-- `json.Unmarshal(statsBytes, &statistic)` for `statistic : map[string]uint64`:
decode the object members in order into the map, returning the partially filled
map together with the first saved decoding error (if any). -/
def unmarshalUint64Map (obj : List (String × JsonVal)) : goMap Nat × Option GoErr :=
  obj.foldl decodeEntry ([], none)

/-- `parseToString` (collector/netdev_windows.go:55-68): marshal the record to
JSON, unmarshal it back into a `map[string]uint64` *discarding the unmarshal
error*, delete the `"name"` key, and return the map with a nil error.  (The
marshal step cannot fail for this struct type, so its error return path is
dead.) -/
def parseToString (data : IOCountersStat) : Except GoErr (goMap Nat) :=
  let statsBytes := marshalIOCounters data
  let statistic := (unmarshalUint64Map statsBytes).1
  Except.ok (mapErase statistic "name")

/-- The map `parseToString` returns (it never fails). -/
def normStats (data : IOCountersStat) : goMap Nat :=
  mapErase (unmarshalUint64Map (marshalIOCounters data)).1 "name"

theorem parseToString_eq_normStats (d : IOCountersStat) :
    parseToString d = Except.ok (normStats d) := rfl

/-- Modelled from the spec: the Device Filter (`netDevFilter`, whose definition
lives outside the collected sources) yields exactly one boolean ignore/keep
decision per candidate device name — a pure, deterministic function of the name
and the configured ignore-rule set. -/
structure netDevFilter where
  ignored : String → Bool

/-- `netDevStats` (defined elsewhere in the repository as
`map[string]map[string]uint64`): interface name → normalized statistics. -/
abbrev netDevStats : Type := goMap (goMap Nat)

/-- The loop of `parseNetDevStats` (collector/netdev_windows.go:39-51),
generalized over the normalizer applied to retained records (the source calls
`parseToString`, which is total on this record type): skip records the filter
ignores, normalize the rest, abort the whole pass with the error if a
normalization fails, otherwise insert keyed by device name. -/
def parseNetDevGo (norm : IOCountersStat → Except GoErr (goMap Nat))
    (filter : netDevFilter) :
    List IOCountersStat → netDevStats → Except GoErr netDevStats
  | [], netDev => Except.ok netDev
  | r :: rest, netDev =>
    if filter.ignored r.Name then
      parseNetDevGo norm filter rest netDev
    else
      match norm r with
      | Except.error err => Except.error err
      | Except.ok statistic =>
        parseNetDevGo norm filter rest (mapInsert netDev r.Name statistic)

def parseNetDevStatsWith (norm : IOCountersStat → Except GoErr (goMap Nat))
    (ni : List IOCountersStat) (filter : netDevFilter) :
    Except GoErr netDevStats :=
  parseNetDevGo norm filter ni []

/-- `parseNetDevStats` (collector/netdev_windows.go:35-53). -/
def parseNetDevStats (ni : List IOCountersStat) (filter : netDevFilter) :
    Except GoErr netDevStats :=
  parseNetDevStatsWith parseToString ni filter

/-- `getNetDevStats` (collector/netdev_windows.go:26-33).  The platform API
call `net.IOCounters(true)` (gopsutil, external) is modelled by its result,
passed in as a parameter. -/
def getNetDevStats (ioCounters : Except GoErr (List IOCountersStat))
    (filter : netDevFilter) : Except GoErr netDevStats :=
  match ioCounters with
  | Except.error err => Except.error err
  | Except.ok netInterfaces => parseNetDevStats netInterfaces filter

/-- The pure map built by the parse loop when every normalization succeeds
(which is always the case for `parseToString`). -/
def parseFold (filter : netDevFilter) :
    List IOCountersStat → netDevStats → netDevStats
  | [], netDev => netDev
  | r :: rest, netDev =>
    if filter.ignored r.Name then
      parseFold filter rest netDev
    else
      parseFold filter rest (mapInsert netDev r.Name (normStats r))

lemma parseNetDevGo_total (filter : netDevFilter) :
    ∀ (l : List IOCountersStat) (acc : netDevStats),
      parseNetDevGo parseToString filter l acc =
        Except.ok (parseFold filter l acc)
  | [], _ => rfl
  | r :: rest, acc => by
    by_cases h : filter.ignored r.Name
    · simp only [parseNetDevGo, parseFold, h, if_true]
      exact parseNetDevGo_total filter rest acc
    · simp only [parseNetDevGo, parseFold, h, if_false, parseToString_eq_normStats]
      exact parseNetDevGo_total filter rest _

lemma lookup_mapInsert {β : Type} (m : goMap β) (k : String) (v : β) :
    List.lookup k (mapInsert m k v) = some v := by
  induction m with
  | nil => simp [mapInsert, List.lookup]
  | cons p m ih =>
    by_cases hpk : p.1 = k
    · simp [mapInsert, hpk, List.lookup]
    · have hkp : (k == p.1) = false := by
        simp only [beq_eq_false_iff_ne]
        exact fun hc => hpk hc.symm
      simp [mapInsert, hpk, List.lookup, hkp, ih]

lemma lookup_mapInsert_ne {β : Type} (m : goMap β) (k : String) (v : β)
    (k' : String) (h : k' ≠ k) :
    List.lookup k' (mapInsert m k v) = List.lookup k' m := by
  induction m with
  | nil =>
    have hk'k : (k' == k) = false := by simpa using h
    simp [mapInsert, List.lookup, hk'k]
  | cons p m ih =>
    by_cases hpk : p.1 = k
    · have hk'p : (k' == p.1) = false := by
        simp only [beq_eq_false_iff_ne]
        exact fun hc => h (hc.trans hpk)
      have hk'k : (k' == k) = false := by simpa using h
      simp [mapInsert, hpk, List.lookup, hk'p, hk'k]
    · by_cases hk'p : k' = p.1
      · simp [mapInsert, hpk, List.lookup, hk'p]
      · have hne : (k' == p.1) = false := by simpa using hk'p
        simp [mapInsert, hpk, List.lookup, hne, ih]

lemma lookup_mapErase {β : Type} (m : goMap β) (k : String) :
    List.lookup k (mapErase m k) = none := by
  induction m with
  | nil => rfl
  | cons p m ih =>
    by_cases hpk : p.1 = k
    · have : (p.1 != k) = false := by simp [hpk]
      simp [mapErase, List.filter, this] at ih ⊢
      exact ih
    · have h1 : (p.1 != k) = true := by simp [hpk]
      have h2 : (k == p.1) = false := by
        simp only [beq_eq_false_iff_ne]
        exact fun hc => hpk hc.symm
      simp [mapErase, List.filter, h1, List.lookup, h2] at ih ⊢
      exact ih

lemma firstErr_isSome (saved : Option GoErr) (e : GoErr) :
    (firstErr saved e).isSome = true := by
  cases saved <;> simp [firstErr]

lemma decodeEntry_err_isSome (acc : goMap Nat × Option GoErr)
    (kv : String × JsonVal) (h : acc.2.isSome = true) :
    ((decodeEntry acc kv).2).isSome = true := by
  rcases kv with ⟨k, val⟩
  cases val with
  | str s => simpa [decodeEntry] using firstErr_isSome acc.2 _
  | num n =>
    simp only [decodeEntry]
    split
    · exact h
    · exact firstErr_isSome acc.2 _

lemma foldl_decode_err :
    ∀ (obj : List (String × JsonVal)) (acc : goMap Nat × Option GoErr),
      acc.2.isSome = true → ((obj.foldl decodeEntry acc).2).isSome = true
  | [], _ => fun h => h
  | kv :: obj, acc => fun h =>
    foldl_decode_err obj (decodeEntry acc kv) (decodeEntry_err_isSome acc kv h)

lemma parseFold_ignored_absent (filter : netDevFilter) (dev : String)
    (hdev : filter.ignored dev = true) :
    ∀ (l : List IOCountersStat) (acc : netDevStats),
      List.lookup dev acc = none →
      List.lookup dev (parseFold filter l acc) = none
  | [], _ => fun h => h
  | r :: rest, acc => by
    intro hacc
    by_cases h : filter.ignored r.Name
    · simp only [parseFold, h, if_true]
      exact parseFold_ignored_absent filter dev hdev rest acc hacc
    · simp only [parseFold, h, if_false]
      apply parseFold_ignored_absent filter dev hdev rest
      have hne : dev ≠ r.Name := by
        intro hc
        rw [hc] at hdev
        exact h hdev
      rw [lookup_mapInsert_ne _ _ _ _ hne]
      exact hacc

lemma parseFold_mono (filter : netDevFilter) (k : String) :
    ∀ (l : List IOCountersStat) (acc : netDevStats),
      (List.lookup k acc).isSome = true →
      (List.lookup k (parseFold filter l acc)).isSome = true
  | [], _ => fun h => h
  | r :: rest, acc => by
    intro hacc
    by_cases h : filter.ignored r.Name
    · simp only [parseFold, h, if_true]
      exact parseFold_mono filter k rest acc hacc
    · simp only [parseFold, h, if_false]
      apply parseFold_mono filter k rest
      by_cases hk : k = r.Name
      · rw [hk, lookup_mapInsert]
        rfl
      · rw [lookup_mapInsert_ne _ _ _ _ hk]
        exact hacc

lemma parseFold_mem (filter : netDevFilter) (k : String)
    (hk : filter.ignored k = false) :
    ∀ (l : List IOCountersStat) (acc : netDevStats),
      (∃ r ∈ l, r.Name = k) →
      (List.lookup k (parseFold filter l acc)).isSome = true
  | [], _ => by
    rintro ⟨r, hr, _⟩
    simp at hr
  | r :: rest, acc => by
    rintro ⟨r', hr', hname⟩
    rcases List.mem_cons.mp hr' with rfl | hmem
    · have h : filter.ignored r'.Name = false := by rw [hname]; exact hk
      simp only [parseFold, h, if_false]
      apply parseFold_mono filter k rest
      rw [hname, lookup_mapInsert]
      rfl
    · by_cases h : filter.ignored r.Name
      · simp only [parseFold, h, if_true]
        exact parseFold_mem filter k hk rest acc ⟨r', hmem, hname⟩
      · simp only [parseFold, h, if_false]
        exact parseFold_mem filter k hk rest _ ⟨r', hmem, hname⟩

lemma parseNetDevGo_congr (filter : netDevFilter)
    (norm1 norm2 : IOCountersStat → Except GoErr (goMap Nat)) :
    ∀ (l : List IOCountersStat) (acc : netDevStats),
      (∀ r ∈ l, filter.ignored r.Name = false → norm1 r = norm2 r) →
      parseNetDevGo norm1 filter l acc = parseNetDevGo norm2 filter l acc
  | [], _ => fun _ => rfl
  | r :: rest, acc => by
    intro hagree
    by_cases h : filter.ignored r.Name
    · simp only [parseNetDevGo, h, if_true]
      exact parseNetDevGo_congr filter norm1 norm2 rest acc
        (fun r' hr' => hagree r' (List.mem_cons_of_mem r hr'))
    · have heq : norm1 r = norm2 r := hagree r (List.mem_cons_self r rest) (by simpa using h)
      simp only [parseNetDevGo, h, if_false, heq]
      cases norm2 r with
      | error e => rfl
      | ok statistic =>
        exact parseNetDevGo_congr filter norm1 norm2 rest _
          (fun r' hr' => hagree r' (List.mem_cons_of_mem r hr'))

lemma parseNetDevGo_err (filter : netDevFilter)
    (norm : IOCountersStat → Except GoErr (goMap Nat)) (e : GoErr)
    (r : IOCountersStat) (l2 : List IOCountersStat)
    (h2 : filter.ignored r.Name = false) (h3 : norm r = Except.error e) :
    ∀ (l1 : List IOCountersStat) (acc : netDevStats),
      (∀ r' ∈ l1, filter.ignored r'.Name = false → ∃ v, norm r' = Except.ok v) →
      parseNetDevGo norm filter (l1 ++ r :: l2) acc = Except.error e
  | [], acc => by
    intro _
    simp [parseNetDevGo, h2, h3]
  | r' :: l1, acc => by
    intro h1
    by_cases h : filter.ignored r'.Name
    · simp only [List.cons_append, parseNetDevGo, h, if_true]
      exact parseNetDevGo_err filter norm e r l2 h2 h3 l1 acc
        (fun x hx => h1 x (List.mem_cons_of_mem r' hx))
    · obtain ⟨v, hv⟩ := h1 r' (List.mem_cons_self r' l1) (by simpa using h)
      simp only [List.cons_append, parseNetDevGo, h, if_false, hv]
      exact parseNetDevGo_err filter norm e r l2 h2 h3 l1 _
        (fun x hx => h1 x (List.mem_cons_of_mem r' hx))

lemma parseFold_append (filter : netDevFilter) :
    ∀ (l1 l2 : List IOCountersStat) (acc : netDevStats),
      parseFold filter (l1 ++ l2) acc = parseFold filter l2 (parseFold filter l1 acc)
  | [], _, _ => rfl
  | r :: l1, l2, acc => by
    by_cases h : filter.ignored r.Name <;>
      simp only [List.cons_append, parseFold, h, if_true, if_false] <;>
      exact parseFold_append filter l1 l2 _

/-- Concrete record from the spec's scenario: `eth0` with `bytes_sent = 100`
and `bytes_recv = 200`. -/
def sampleEth0 : IOCountersStat :=
  { Name := "eth0", BytesSent := 100, BytesRecv := 200, PacketsSent := 0,
    PacketsRecv := 0, Errin := 0, Errout := 0, Dropin := 0, Dropout := 0,
    Fifoin := 0, Fifoout := 0 }

/-- Concrete record from the spec's scenario: the loopback interface. -/
def sampleLo : IOCountersStat :=
  { Name := "lo", BytesSent := 7, BytesRecv := 8, PacketsSent := 0,
    PacketsRecv := 0, Errin := 0, Errout := 0, Dropin := 0, Dropout := 0,
    Fifoin := 0, Fifoout := 0 }

/-- The spec scenario's filter: ignore exactly the name `lo`. -/
def filterLo : netDevFilter := ⟨fun s => s == "lo"⟩

/-- A filter that ignores nothing. -/
def filterNone : netDevFilter := ⟨fun _ => false⟩

/-- A second record named `eth0`, for the duplicate-name scenario. -/
def sampleEth0Later : IOCountersStat :=
  { Name := "eth0", BytesSent := 150, BytesRecv := 250, PacketsSent := 1,
    PacketsRecv := 1, Errin := 0, Errout := 0, Dropin := 0, Dropout := 0,
    Fifoin := 0, Fifoout := 0 }

/-- C1: for every interface statistics record (whose counter fields satisfy the
`uint64` range invariant), `parseToString` succeeds and returns the mapping
whose keys are exactly the record's JSON field names other than `name`, each
bound to the original field's `uint64` value; the `name` field is absent. -/
theorem parseToString_fields_exact (d : IOCountersStat) (h : d.wf) :
    parseToString d = Except.ok
      [("bytesSent", d.BytesSent), ("bytesRecv", d.BytesRecv),
       ("packetsSent", d.PacketsSent), ("packetsRecv", d.PacketsRecv),
       ("errin", d.Errin), ("errout", d.Errout), ("dropin", d.Dropin),
       ("dropout", d.Dropout), ("fifoin", d.Fifoin), ("fifoout", d.Fifoout)] := by
  obtain ⟨h1, h2, h3, h4, h5, h6, h7, h8, h9, h10⟩ := h
  norm_num at h1 h2 h3 h4 h5 h6 h7 h8 h9 h10
  simp [parseToString, unmarshalUint64Map, marshalIOCounters, decodeEntry,
        mapInsert, mapErase, firstErr, h1, h2, h3, h4, h5, h6, h7, h8, h9, h10]

theorem parseToString_fields_exact_witness :
    parseToString sampleEth0 = Except.ok
      [("bytesSent", 100), ("bytesRecv", 200), ("packetsSent", 0),
       ("packetsRecv", 0), ("errin", 0), ("errout", 0), ("dropin", 0),
       ("dropout", 0), ("fifoin", 0), ("fifoout", 0)] :=
  parseToString_fields_exact sampleEth0 (by decide)

/-- C2: whenever the network collection pass succeeds with result map `m`,
every device name the filter ignores is absent from `m`; every retained
record's name is present in `m`; and the pass result depends on the normalizer
only at non-ignored records (filtering happens before normalization, so
ignored records are never normalized). -/
theorem parseNetDevStats_filter_spec (ni : List IOCountersStat)
    (filter : netDevFilter) (m : netDevStats)
    (hm : parseNetDevStats ni filter = Except.ok m) :
    (∀ dev, filter.ignored dev = true → List.lookup dev m = none) ∧
    (∀ r ∈ ni, filter.ignored r.Name = false →
      (List.lookup r.Name m).isSome = true) ∧
    (∀ norm1 norm2 : IOCountersStat → Except GoErr (goMap Nat),
      (∀ r ∈ ni, filter.ignored r.Name = false → norm1 r = norm2 r) →
      parseNetDevStatsWith norm1 ni filter = parseNetDevStatsWith norm2 ni filter) := by
  have htot : parseNetDevStats ni filter = Except.ok (parseFold filter ni []) :=
    parseNetDevGo_total filter ni []
  have hfold : parseFold filter ni [] = m := by
    have := htot.symm.trans hm
    injection this
  refine ⟨?_, ?_, ?_⟩
  · intro dev hdev
    rw [← hfold]
    exact parseFold_ignored_absent filter dev hdev ni [] rfl
  · intro r hr hkeep
    rw [← hfold]
    exact parseFold_mem filter r.Name hkeep ni [] ⟨r, hr, rfl⟩
  · intro norm1 norm2 hagree
    exact parseNetDevGo_congr filter norm1 norm2 ni [] hagree

theorem parseNetDevStats_filter_spec_witness :
    List.lookup "lo" [("eth0", normStats sampleEth0)] = none ∧
    (List.lookup "eth0" [("eth0", normStats sampleEth0)]).isSome = true := by
  have h := parseNetDevStats_filter_spec [sampleEth0, sampleLo] filterLo
    [("eth0", normStats sampleEth0)] rfl
  exact ⟨h.1 "lo" (by decide), h.2.1 sampleEth0 (by decide) (by decide)⟩

/-- C6: the network pass is all-or-nothing.  If the platform query fails, the
pass returns that error (and, the result being `Except.error`, no map at all);
if the first retained record whose normalization fails yields error `e2`, the
pass returns `Except.error e2` — no partial map is returned.  The propagation
structure is proved over the loop generalized in its normalizer, since the
source's `parseToString` is total on this record type. -/
theorem netdev_pass_all_or_nothing (e1 e2 : GoErr) (filter : netDevFilter)
    (norm : IOCountersStat → Except GoErr (goMap Nat))
    (l1 l2 : List IOCountersStat) (r : IOCountersStat)
    (h1 : ∀ r' ∈ l1, filter.ignored r'.Name = false → ∃ v, norm r' = Except.ok v)
    (h2 : filter.ignored r.Name = false)
    (h3 : norm r = Except.error e2) :
    getNetDevStats (Except.error e1) filter = Except.error e1 ∧
    parseNetDevStatsWith norm (l1 ++ r :: l2) filter = Except.error e2 :=
  ⟨rfl, parseNetDevGo_err filter norm e2 r l2 h2 h3 l1 [] h1⟩

theorem netdev_pass_all_or_nothing_witness :
    getNetDevStats (Except.error "platform query failed") filterNone =
      Except.error "platform query failed" ∧
    parseNetDevStatsWith (fun _ => Except.error "normalization failed")
      [sampleEth0] filterNone = Except.error "normalization failed" :=
  netdev_pass_all_or_nothing "platform query failed" "normalization failed"
    filterNone (fun _ => Except.error "normalization failed") [] [] sampleEth0
    (by simp) (by decide) rfl

/-- C9: if the platform returns two records with the same interface name and
neither is filtered, the parse neither fails nor crashes, and the result map
holds the normalized statistics of the last-seen record under that name. -/
theorem parseNetDevStats_last_seen_wins (filter : netDevFilter)
    (ni : List IOCountersStat) (r1 r2 : IOCountersStat)
    (_hname : r1.Name = r2.Name)
    (hk1 : filter.ignored r1.Name = false)
    (hk2 : filter.ignored r2.Name = false) :
    ∃ m, parseNetDevStats (ni ++ [r1, r2]) filter = Except.ok m ∧
      List.lookup r2.Name m = some (normStats r2) := by
  refine ⟨parseFold filter (ni ++ [r1, r2]) [], parseNetDevGo_total filter _ [], ?_⟩
  rw [parseFold_append]
  simp only [parseFold, hk1, hk2, if_false]
  exact lookup_mapInsert _ _ _

theorem parseNetDevStats_last_seen_wins_witness :
    ∃ m, parseNetDevStats [sampleEth0, sampleEth0Later] filterNone = Except.ok m ∧
      List.lookup "eth0" m = some (normStats sampleEth0Later) :=
  parseNetDevStats_last_seen_wins filterNone [] sampleEth0 sampleEth0Later
    rfl rfl rfl

/-- C10: `parseToString` can only fail at the marshal step, which cannot fail
for this record type, so it always succeeds; the unmarshal error — which *is*
raised, because the `name` member is a JSON string that cannot decode into
`uint64` — is discarded, and the returned mapping silently lacks the `name`
field instead of reporting a normalization error. -/
theorem parseToString_discards_decode_error (d : IOCountersStat) :
    (∃ m, parseToString d = Except.ok m ∧ List.lookup "name" m = none) ∧
    ((unmarshalUint64Map (marshalIOCounters d)).2).isSome = true := by
  constructor
  · exact ⟨normStats d, parseToString_eq_normStats d, lookup_mapErase _ _⟩
  · show ((List.foldl decodeEntry ([], none) (marshalIOCounters d)).2).isSome = true
    rw [marshalIOCounters, List.foldl_cons]
    apply foldl_decode_err
    simp [decodeEntry, firstErr]

/-- The per-device telemetry surface of a gonvml device handle; each read may
fail independently, so each is modelled by its `Except` result. -/
structure gonvmlDevice where
  UUID : Except GoErr String
  Name : Except GoErr String
  MinorNumber : Except GoErr Nat
  Temperature : Except GoErr Nat
  PowerUsage : Except GoErr Nat
  FanSpeed : Except GoErr Nat
  MemoryInfo : Except GoErr (Nat × Nat)
  UtilizationRates : Except GoErr (Nat × Nat)
  AverageGPUUtilization : Except GoErr Nat

/-- The vendor GPU management API (gonvml, external), modelled as an oracle
recording the result of each call made by one pass.  `Init` is the result of
`gonvml.Initialize()`; `UtilizationRates` yields `(gpu, memory)` and
`MemoryInfo` yields `(total, used)`, as in gonvml. -/
structure gonvmlApi where
  Init : Except GoErr Unit
  SystemDriverVersion : Except GoErr String
  DeviceCount : Except GoErr Nat
  DeviceHandleByIndex : Nat → Except GoErr gonvmlDevice

/-- `gpuDevice` (collector/gpu_common.go:52-65).  The `float64` telemetry
fields hold values converted from gonvml's unsigned integers and are modelled
by those integers. -/
structure gpuDevice where
  Index : String
  MinorNumber : String
  Name : String
  UUID : String
  Temperature : Nat
  PowerUsage : Nat
  FanSpeed : Nat
  MemoryTotal : Nat
  MemoryUsed : Nat
  UtilizationMemory : Nat
  UtilizationGPU : Nat
  UtilizationGPUAverage : Nat
deriving DecidableEq

/-- `gpuMetrics` (collector/gpu_common.go:67-70). -/
structure gpuMetrics where
  Version : String
  Devices : List gpuDevice
deriving DecidableEq

/-- One iteration of the enumeration loop in `collectMetricDevice`
(collector/gpu_common.go:173-239): resolve the handle by index, then read
UUID, name, minor number, temperature, power usage, fan speed, memory info,
utilization rates and average GPU utilization in source order, returning the
first failing read's error. -/
def collectDevice (api : gonvmlApi) (index : Nat) : Except GoErr gpuDevice :=
  match api.DeviceHandleByIndex index with
  | Except.error e => Except.error e
  | Except.ok device =>
    match device.UUID with
    | Except.error e => Except.error e
    | Except.ok uuid =>
      match device.Name with
      | Except.error e => Except.error e
      | Except.ok name =>
        match device.MinorNumber with
        | Except.error e => Except.error e
        | Except.ok minorNumber =>
          match device.Temperature with
          | Except.error e => Except.error e
          | Except.ok temperature =>
            match device.PowerUsage with
            | Except.error e => Except.error e
            | Except.ok powerUsage =>
              match device.FanSpeed with
              | Except.error e => Except.error e
              | Except.ok fanSpeed =>
                match device.MemoryInfo with
                | Except.error e => Except.error e
                | Except.ok mem =>
                  match device.UtilizationRates with
                  | Except.error e => Except.error e
                  | Except.ok util =>
                    match device.AverageGPUUtilization with
                    | Except.error e => Except.error e
                    | Except.ok utilizationGPUAverage =>
                      Except.ok
                        { Index := toString index,
                          MinorNumber := toString minorNumber,
                          Name := name, UUID := uuid,
                          Temperature := temperature,
                          PowerUsage := powerUsage, FanSpeed := fanSpeed,
                          MemoryTotal := mem.1, MemoryUsed := mem.2,
                          UtilizationMemory := util.2,
                          UtilizationGPU := util.1,
                          UtilizationGPUAverage := utilizationGPUAverage }

/-- The loop `for index := 0; index < numDevices; index++`: first argument the
next index, second the number of indices remaining; devices accumulate in
index order and the first failure aborts with its error. -/
def collectDevices (api : gonvmlApi) : Nat → Nat → Except GoErr (List gpuDevice)
  | _, 0 => Except.ok []
  | i, n + 1 =>
    match collectDevice api i with
    | Except.error e => Except.error e
    | Except.ok d =>
      match collectDevices api (i + 1) n with
      | Except.error e => Except.error e
      | Except.ok ds => Except.ok (d :: ds)

/-- `collectMetricDevice` (collector/gpu_common.go:153-242), paired with the
number of times `gonvml.Shutdown()` runs during the call.  `defer
gonvml.Shutdown()` is registered immediately after a successful `Initialize`
and Go runs every registered deferred call exactly once when the function
returns, on any path; when `Initialize` fails the function returns before
registering it, so Shutdown never runs. -/
def collectMetricDevice (api : gonvmlApi) : Except GoErr gpuMetrics × Nat :=
  match api.Init with
  | Except.error e => (Except.error e, 0)
  | Except.ok _ =>
    match api.SystemDriverVersion with
    | Except.error e => (Except.error e, 1)
    | Except.ok version =>
      match api.DeviceCount with
      | Except.error e => (Except.error e, 1)
      | Except.ok numDevices =>
        match collectDevices api 0 numDevices with
        | Except.error e => (Except.error e, 1)
        | Except.ok devices =>
          (Except.ok { Version := version, Devices := devices }, 1)

/-- Prometheus metric value kinds used by this collector. -/
inductive valueKind : Type
  | gauge
  | counter
deriving DecidableEq

/-- One `MustNewConstMetric` sample handed to the Prometheus channel: the
metric (identified by the name passed to `BuildFQName`; the constant
namespace/subsystem prefix is elided), the value kind, the value, and the
label values in declaration order (`minornumber`, `name`, `uuid`,
`system_driver_version`). -/
structure metricSample where
  metric : String
  kind : valueKind
  value : Nat
  labels : List String
deriving DecidableEq

/-- Log severities used by these collectors (only debug appears). -/
inductive logLevel : Type
  | debug
deriving DecidableEq

/-- The eight samples `Update` sends for one device record, in source order
(collector/gpu_common.go:131-148). -/
def deviceSamples (version : String) (d : gpuDevice) : List metricSample :=
  [{ metric := "Temperature", kind := valueKind.gauge, value := d.Temperature,
     labels := [d.MinorNumber, d.Name, d.UUID, version] },
   { metric := "PowerUsage", kind := valueKind.gauge, value := d.PowerUsage,
     labels := [d.MinorNumber, d.Name, d.UUID, version] },
   { metric := "FanSpeed", kind := valueKind.gauge, value := d.FanSpeed,
     labels := [d.MinorNumber, d.Name, d.UUID, version] },
   { metric := "MemoryTotal_Bytes", kind := valueKind.counter, value := d.MemoryTotal,
     labels := [d.MinorNumber, d.Name, d.UUID, version] },
   { metric := "MemoryUsed_Bytes", kind := valueKind.gauge, value := d.MemoryUsed,
     labels := [d.MinorNumber, d.Name, d.UUID, version] },
   { metric := "UtilizationMemory", kind := valueKind.gauge, value := d.UtilizationMemory,
     labels := [d.MinorNumber, d.Name, d.UUID, version] },
   { metric := "UtilizationGPU", kind := valueKind.gauge, value := d.UtilizationGPU,
     labels := [d.MinorNumber, d.Name, d.UUID, version] },
   { metric := "UtilizationGPUAverage", kind := valueKind.gauge, value := d.UtilizationGPUAverage,
     labels := [d.MinorNumber, d.Name, d.UUID, version] }]

/-- The emission loop `for _, metrics := range gpu.Devices`. -/
def emitDevices (version : String) : List gpuDevice → List metricSample
  | [] => []
  | d :: rest => deviceSamples version d ++ emitDevices version rest

/-- `(g *gpuCollector) Update` (collector/gpu_common.go:124-151): call
`collectMetricDevice`; on any error log at debug severity and return a nil
error having sent nothing; otherwise send eight samples per device and return
a nil error.  The result triple is (samples sent, log entries written,
returned error). -/
def gpuUpdate (api : gonvmlApi) :
    List metricSample × List (logLevel × String) × Option GoErr :=
  match (collectMetricDevice api).1 with
  | Except.error _ =>
    ([], [(logLevel.debug, "gpu information is unavailable to collect")], none)
  | Except.ok gpu => (emitDevices gpu.Version gpu.Devices, [], none)

lemma collectDevices_err (api : gonvmlApi) (e : GoErr) :
    ∀ (k i rem : Nat),
      (∀ j, i ≤ j → j < i + k → ∃ d, collectDevice api j = Except.ok d) →
      collectDevice api (i + k) = Except.error e →
      k < rem →
      collectDevices api i rem = Except.error e
  | 0, i, rem => by
    intro _ hfail hrem
    match rem, hrem with
    | r + 1, _ =>
      rw [Nat.add_zero] at hfail
      simp only [collectDevices, hfail]
  | k + 1, i, rem => by
    intro hpre hfail hrem
    match rem, hrem with
    | r + 1, hrem =>
      obtain ⟨d, hd⟩ := hpre i (Nat.le_refl i) (by omega)
      have hrec : collectDevices api (i + 1) r = Except.error e :=
        collectDevices_err api e k (i + 1) r
          (fun j hj1 hj2 => hpre j (by omega) (by omega))
          (by rw [show i + 1 + k = i + (k + 1) from by omega]; exact hfail)
          (by omega)
      simp only [collectDevices, hd, hrec]

lemma emitDevices_length (version : String) :
    ∀ l : List gpuDevice, (emitDevices version l).length = 8 * l.length
  | [] => rfl
  | d :: rest => by
    simp only [emitDevices, List.length_append, emitDevices_length version rest,
      List.length_cons]
    simp [deviceSamples]
    ring

lemma emitDevices_mem (version : String) :
    ∀ (l : List gpuDevice) (sm : metricSample), sm ∈ emitDevices version l →
      (sm.kind = valueKind.counter ↔ sm.metric = "MemoryTotal_Bytes") ∧
      ∃ d ∈ l, sm.labels = [d.MinorNumber, d.Name, d.UUID, version]
  | [], sm => by
    intro hsm
    simp [emitDevices] at hsm
  | d :: rest, sm => by
    intro hsm
    rcases List.mem_append.mp hsm with h | h
    · simp only [deviceSamples, List.mem_cons, List.not_mem_nil, or_false] at h
      rcases h with rfl | rfl | rfl | rfl | rfl | rfl | rfl | rfl <;>
        exact ⟨by simp, d, List.mem_cons_self d rest, rfl⟩
    · obtain ⟨hiff, d', hd', hlab⟩ := emitDevices_mem version rest sm h
      exact ⟨hiff, d', List.mem_cons_of_mem d hd', hlab⟩

/-- A device handle whose every telemetry read succeeds. -/
def goodDevice : gonvmlDevice :=
  { UUID := Except.ok "GPU-0", Name := Except.ok "Tesla",
    MinorNumber := Except.ok 0, Temperature := Except.ok 40,
    PowerUsage := Except.ok 30, FanSpeed := Except.ok 20,
    MemoryInfo := Except.ok (1000, 400),
    UtilizationRates := Except.ok (50, 60),
    AverageGPUUtilization := Except.ok 55 }

/-- A device handle whose UUID read fails. -/
def badUUIDDevice : gonvmlDevice :=
  { goodDevice with UUID := Except.error "uuid read failed" }

/-- The spec scenario's oracle: two devices, device 1's UUID read fails. -/
def apiTwoDevices : gonvmlApi :=
  { Init := Except.ok (), SystemDriverVersion := Except.ok "440.33.01",
    DeviceCount := Except.ok 2,
    DeviceHandleByIndex := fun i =>
      if i = 0 then Except.ok goodDevice else Except.ok badUUIDDevice }

/-- A fully healthy oracle with one device. -/
def apiOneDevice : gonvmlApi :=
  { Init := Except.ok (), SystemDriverVersion := Except.ok "440.33.01",
    DeviceCount := Except.ok 1,
    DeviceHandleByIndex := fun _ => Except.ok goodDevice }

/-- An oracle whose `Initialize` fails (no GPU / driver absent). -/
def apiNoInit : gonvmlApi :=
  { Init := Except.error "could not load NVML library",
    SystemDriverVersion := Except.ok "440.33.01",
    DeviceCount := Except.ok 0,
    DeviceHandleByIndex := fun _ => Except.ok goodDevice }

/-- The record `collectDevice` builds from `goodDevice` at index 0. -/
def goodDeviceRecord : gpuDevice :=
  { Index := "0", MinorNumber := "0", Name := "Tesla", UUID := "GPU-0",
    Temperature := 40, PowerUsage := 30, FanSpeed := 20, MemoryTotal := 1000,
    MemoryUsed := 400, UtilizationMemory := 60, UtilizationGPU := 50,
    UtilizationGPUAverage := 55 }

/-- The metrics `collectMetricDevice` returns on `apiOneDevice`. -/
def goodGpuMetrics : gpuMetrics :=
  { Version := "440.33.01", Devices := [goodDeviceRecord] }

/-- C3: if initialization, driver-version and device-count queries succeed with
`n` devices, the telemetry reads of every device below `k` succeed, and some
read of device `k < n` fails with error `e`, then `collectMetricDevice`
returns the pair of `Except.error e` — a non-nil error carrying no device list
at all, partial or otherwise — and one Shutdown call. -/
theorem collectMetricDevice_abort_on_read_failure (api : gonvmlApi)
    (v : String) (n k : Nat) (e : GoErr)
    (hinit : api.Init = Except.ok ())
    (hver : api.SystemDriverVersion = Except.ok v)
    (hcount : api.DeviceCount = Except.ok n)
    (hk : k < n)
    (hpre : ∀ i, i < k → ∃ d, collectDevice api i = Except.ok d)
    (hfail : collectDevice api k = Except.error e) :
    collectMetricDevice api = (Except.error e, 1) := by
  have hloop : collectDevices api 0 n = Except.error e :=
    collectDevices_err api e k 0 n
      (fun j hj1 hj2 => hpre j (by omega)) (by simpa using hfail) hk
  simp only [collectMetricDevice, hinit, hver, hcount, hloop]

theorem collectMetricDevice_abort_on_read_failure_witness :
    collectMetricDevice apiTwoDevices = (Except.error "uuid read failed", 1) :=
  collectMetricDevice_abort_on_read_failure apiTwoDevices "440.33.01" 2 1
    "uuid read failed" rfl rfl rfl (by omega)
    (by
      intro i hi
      have hz : i = 0 := by omega
      subst hz
      exact ⟨goodDeviceRecord, rfl⟩)
    rfl

/-- C4: if the GPU management API fails to initialize, the per-pass `Update`
returns a nil (non-fatal) error, sends zero samples, and logs the condition at
debug (low) severity. -/
theorem gpuUpdate_init_failure_soft (api : gonvmlApi) (e : GoErr)
    (h : api.Init = Except.error e) :
    gpuUpdate api =
      ([], [(logLevel.debug, "gpu information is unavailable to collect")], none) := by
  simp only [gpuUpdate, collectMetricDevice, h]

theorem gpuUpdate_init_failure_soft_witness :
    gpuUpdate apiNoInit =
      ([], [(logLevel.debug, "gpu information is unavailable to collect")], none) :=
  gpuUpdate_init_failure_soft apiNoInit "could not load NVML library" rfl

/-- C5 counterexample: with two devices and device 1's UUID read failing
mid-enumeration, the pass core returns a read error, yet `Update` — the pass
boundary the poller calls — returns a nil error and zero samples: the error is
suppressed rather than reported to the poller, refuting the claim as stated. -/
theorem gpuUpdate_suppresses_read_error_cex :
    (collectMetricDevice apiTwoDevices).1 = Except.error "uuid read failed" ∧
    (gpuUpdate apiTwoDevices).2.2 = none ∧
    (gpuUpdate apiTwoDevices).1 = [] :=
  ⟨rfl, rfl, rfl⟩

/-- C5 amended: every error occurring during a GPU collection pass — in
particular a per-device telemetry read failure mid-enumeration — is returned
by the pass core `collectMetricDevice` to its immediate caller
`gpuCollector.Update`, but `Update` does not propagate it to the poller: it
logs the condition at debug severity and returns a nil error with zero
samples for that pass. -/
theorem gpuUpdate_suppresses_collect_errors (api : gonvmlApi) (e : GoErr)
    (s : Nat) (h : collectMetricDevice api = (Except.error e, s)) :
    gpuUpdate api =
      ([], [(logLevel.debug, "gpu information is unavailable to collect")], none) := by
  simp only [gpuUpdate, h]

theorem gpuUpdate_suppresses_collect_errors_witness :
    gpuUpdate apiTwoDevices =
      ([], [(logLevel.debug, "gpu information is unavailable to collect")], none) :=
  gpuUpdate_suppresses_collect_errors apiTwoDevices "uuid read failed" 1 rfl

/-- C7: on every execution of `collectMetricDevice` in which `Initialize`
succeeds, Shutdown runs exactly once before the function returns, on every
exit path — success, driver-version failure, device-count failure, or any
mid-enumeration read failure. -/
theorem collectMetricDevice_shutdown_once (api : gonvmlApi)
    (h : api.Init = Except.ok ()) :
    (collectMetricDevice api).2 = 1 := by
  cases hv : api.SystemDriverVersion with
  | error e => simp [collectMetricDevice, h, hv]
  | ok v =>
    cases hc : api.DeviceCount with
    | error e => simp [collectMetricDevice, h, hv, hc]
    | ok n =>
      cases hd : collectDevices api 0 n with
      | error e => simp [collectMetricDevice, h, hv, hc, hd]
      | ok ds => simp [collectMetricDevice, h, hv, hc, hd]

theorem collectMetricDevice_shutdown_once_witness :
    (collectMetricDevice apiOneDevice).2 = 1 :=
  collectMetricDevice_shutdown_once apiOneDevice rfl

/-- C8: in a successful pass the emitter receives, per device record and in
source order, exactly eight samples — temperature, power usage, fan speed,
memory total, memory used, utilization memory, utilization GPU, utilization
GPU average — of which the memory-total sample alone is of counter kind and
the seven others of gauge kind, and every sample carries exactly the label
values minor number, name, UUID, driver version. -/
theorem gpuUpdate_samples_shape (api : gonvmlApi) (gpu : gpuMetrics) (s : Nat)
    (h : collectMetricDevice api = (Except.ok gpu, s)) :
    (gpuUpdate api).1 = emitDevices gpu.Version gpu.Devices ∧
    (gpuUpdate api).1.length = 8 * gpu.Devices.length ∧
    (∀ d ∈ gpu.Devices, deviceSamples gpu.Version d =
      [{ metric := "Temperature", kind := valueKind.gauge, value := d.Temperature,
         labels := [d.MinorNumber, d.Name, d.UUID, gpu.Version] },
       { metric := "PowerUsage", kind := valueKind.gauge, value := d.PowerUsage,
         labels := [d.MinorNumber, d.Name, d.UUID, gpu.Version] },
       { metric := "FanSpeed", kind := valueKind.gauge, value := d.FanSpeed,
         labels := [d.MinorNumber, d.Name, d.UUID, gpu.Version] },
       { metric := "MemoryTotal_Bytes", kind := valueKind.counter, value := d.MemoryTotal,
         labels := [d.MinorNumber, d.Name, d.UUID, gpu.Version] },
       { metric := "MemoryUsed_Bytes", kind := valueKind.gauge, value := d.MemoryUsed,
         labels := [d.MinorNumber, d.Name, d.UUID, gpu.Version] },
       { metric := "UtilizationMemory", kind := valueKind.gauge, value := d.UtilizationMemory,
         labels := [d.MinorNumber, d.Name, d.UUID, gpu.Version] },
       { metric := "UtilizationGPU", kind := valueKind.gauge, value := d.UtilizationGPU,
         labels := [d.MinorNumber, d.Name, d.UUID, gpu.Version] },
       { metric := "UtilizationGPUAverage", kind := valueKind.gauge, value := d.UtilizationGPUAverage,
         labels := [d.MinorNumber, d.Name, d.UUID, gpu.Version] }]) ∧
    (∀ sm ∈ (gpuUpdate api).1,
      (sm.kind = valueKind.counter ↔ sm.metric = "MemoryTotal_Bytes") ∧
      ∃ d ∈ gpu.Devices, sm.labels = [d.MinorNumber, d.Name, d.UUID, gpu.Version]) := by
  have hup : (gpuUpdate api).1 = emitDevices gpu.Version gpu.Devices := by
    simp only [gpuUpdate, h]
  refine ⟨hup, ?_, fun d _ => rfl, ?_⟩
  · rw [hup]
    exact emitDevices_length gpu.Version gpu.Devices
  · intro sm hsm
    rw [hup] at hsm
    exact emitDevices_mem gpu.Version gpu.Devices sm hsm

theorem gpuUpdate_samples_shape_witness :
    (gpuUpdate apiOneDevice).1 = emitDevices "440.33.01" [goodDeviceRecord] ∧
    (gpuUpdate apiOneDevice).1.length = 8 * 1 := by
  have h := gpuUpdate_samples_shape apiOneDevice goodGpuMetrics 1 rfl
  exact ⟨h.1, h.2.1⟩
